import Mathlib

/-!
Shallow embedding of the Canvas LMS API client (`CanvasAPI` in
`src/settings.ts`) of the Obsidian-Canvas-Plugin repository, with proofs of
the specification's claims about it.

JS strings are modelled as `List Char`; HTTP transport (`requestUrl` from the
Obsidian API) is modelled as a function from a request descriptor to either a
thrown error (`Except.error`) or a `Response` carrying status, raw text and
decoded JSON (the source passes `throw: false`, so every HTTP status comes
back as a `Response`, never as a thrown error).
-/

/-- JS strings, modelled as lists of characters. -/
abbrev Str := List Char

/-- JS `String.prototype.includes`: `jsIncludes hay needle` is `true` iff
`needle` occurs as a contiguous substring of `hay`. -/
def jsIncludes (hay needle : Str) : Bool :=
  needle.isPrefixOf hay ||
    match hay with
    | [] => false
    | _ :: t => jsIncludes t needle

/-- Decimal rendering of a natural number, as JS string conversion does. -/
def natToStr (n : Nat) : Str := (Nat.repr n).data

/-- Characters that are ASCII letters or digits. -/
def isUriAlnum (c : Char) : Bool :=
  (65 ≤ c.toNat && c.toNat ≤ 90) ||
  (97 ≤ c.toNat && c.toNat ≤ 122) ||
  (48 ≤ c.toNat && c.toNat ≤ 57)

/-- Characters left unescaped by JS `encodeURIComponent`:
letters, digits and `- _ . ! ~ * ' ( )`. -/
def encodeURIComponentSafe (c : Char) : Bool :=
  isUriAlnum c || c == '-' || c == '_' || c == '.' || c == '!' ||
    c == '~' || c == '*' || c == Char.ofNat 39 || c == '(' || c == ')'

/-- Characters left unescaped by `URLSearchParams` serialization
(`application/x-www-form-urlencoded`): letters, digits and `* - . _`. -/
def formSafe (c : Char) : Bool :=
  isUriAlnum c || c == '*' || c == '-' || c == '.' || c == '_'

/-- Uppercase hexadecimal digit for a value below 16. -/
def hexDigit (n : Nat) : Char :=
  ("0123456789ABCDEF".data).getD n '0'

/-- Percent-encoding of a single byte, e.g. `47 ↦ "%2F"`. -/
def percentByte (b : Nat) : Str :=
  ['%', hexDigit (b / 16), hexDigit (b % 16)]

/-- UTF-8 byte sequence of a character, as JS URL encoding uses. -/
def utf8Bytes (c : Char) : List Nat :=
  let n := c.toNat
  if n < 128 then [n]
  else if n < 2048 then [192 + n / 64, 128 + n % 64]
  else if n < 65536 then [224 + n / 4096, 128 + (n / 64) % 64, 128 + n % 64]
  else [240 + n / 262144, 128 + (n / 4096) % 64, 128 + (n / 64) % 64, 128 + n % 64]

/-- JS `encodeURIComponent`. -/
def encodeURIComponent (s : Str) : Str :=
  (s.map fun c =>
    if encodeURIComponentSafe c then [c]
    else ((utf8Bytes c).map percentByte).flatten).flatten

/-- Encoding of one key or value by `URLSearchParams.toString`:
space becomes `+`, unsafe characters are percent-encoded. -/
def formEncode (s : Str) : Str :=
  (s.map fun c =>
    if c = ' ' then ['+']
    else if formSafe c then [c]
    else ((utf8Bytes c).map percentByte).flatten).flatten

/-- Values a JS query-parameter mapping can hold in this plugin:
strings, numbers, or arrays of values. -/
inductive JSValue where
  | str (s : Str)
  | num (n : Nat)
  | arr (xs : List JSValue)

mutual

/-- JS default string conversion `String(value)`: a string is itself, a number
renders in decimal, an array joins its elements' conversions with commas. -/
def jsToString : JSValue → Str
  | JSValue.str s => s
  | JSValue.num n => natToStr n
  | JSValue.arr xs => jsArrToString xs

/-- Comma-separated concatenation of the converted array elements. -/
def jsArrToString : List JSValue → Str
  | [] => []
  | [x] => jsToString x
  | x :: y :: xs => jsToString x ++ ',' :: jsArrToString (y :: xs)

end

/-- Decoded JSON values (the client is schema-agnostic: it returns whatever
the remote API sends, so the shape is an arbitrary JSON tree). -/
inductive Json where
  | null
  | bool (b : Bool)
  | num (n : Int)
  | str (s : Str)
  | arr (xs : List Json)
  | obj (fields : List (Str × Json))

/-- Escaping of one character inside a JSON string literal. -/
def escapeJsonChar (c : Char) : Str :=
  if c = '"' then ['\\', '"']
  else if c = '\\' then ['\\', '\\']
  else if c = Char.ofNat 10 then ['\\', 'n']
  else if c = Char.ofNat 9 then ['\\', 't']
  else if c = Char.ofNat 13 then ['\\', 'r']
  else [c]

mutual

/-- JS `JSON.stringify` over the modelled JSON trees. -/
def jsonStringify : Json → Str
  | Json.null => "null".data
  | Json.bool true => "true".data
  | Json.bool false => "false".data
  | Json.num n => (n.repr).data
  | Json.str s => '"' :: (s.map escapeJsonChar).flatten ++ ['"']
  | Json.arr xs => '[' :: jsonStringifyArr xs ++ [']']
  | Json.obj fs => Char.ofNat 123 :: jsonStringifyObj fs ++ [Char.ofNat 125]

/-- Comma-separated serialization of a JSON array's elements. -/
def jsonStringifyArr : List Json → Str
  | [] => []
  | [x] => jsonStringify x
  | x :: y :: xs => jsonStringify x ++ ',' :: jsonStringifyArr (y :: xs)

/-- Comma-separated serialization of a JSON object's fields. -/
def jsonStringifyObj : List (Str × Json) → Str
  | [] => []
  | [(k, v)] =>
      '"' :: (k.map escapeJsonChar).flatten ++ ['"'] ++ ':' :: jsonStringify v
  | (k, v) :: f :: fs =>
      '"' :: (k.map escapeJsonChar).flatten ++ ['"'] ++ ':' :: jsonStringify v
        ++ ',' :: jsonStringifyObj (f :: fs)

end

/-- Plugin settings (`MyPluginSettings` in `src/settings.ts`). -/
structure MyPluginSettings where
  mySetting : Str
  canvasApiUrl : Str
  canvasApiToken : Str
  useProxy : Bool
  corsProxyUrl : Str

/-- HTTP response as seen through Obsidian's `requestUrl` with `throw: false`:
status code, raw text and decoded JSON body. -/
structure Response where
  status : Nat
  text : Str
  json : Json

/-- Request descriptor handed to `requestUrl` by `CanvasAPI._request`. -/
structure HttpRequest where
  url : Str
  method : Str
  headers : List (Str × Str)
  body : Option Str
  throwOnError : Bool

/-- The HTTP layer: maps a request to a thrown transport error
(`Except.error`) or a response (any status, since `throw: false`). -/
def Transport := HttpRequest → Except Str Response

/-- Client state (`CanvasAPI` fields in `src/settings.ts`, lines 120-124). -/
structure CanvasAPI where
  apiUrl : Str
  accessToken : Str
  useProxy : Bool
  corsProxyUrl : Str

/-- JS `url.replace(/\/$/, '')`: removes a single trailing slash when the
last character is a slash, otherwise leaves the string unchanged. -/
def stripTrailingSlash (s : Str) : Str :=
  if s.getLast? = some '/' then s.dropLast else s

/-- Constructor of `CanvasAPI` (`src/settings.ts`, lines 126-131): snapshots
the settings, normalizing the base URL by removing a trailing slash. -/
def CanvasAPI.ofSettings (settings : MyPluginSettings) : CanvasAPI :=
  { apiUrl := stripTrailingSlash settings.canvasApiUrl
    accessToken := settings.canvasApiToken
    useProxy := settings.useProxy
    corsProxyUrl := settings.corsProxyUrl }

/-- Endpoint normalization in `_request` (lines 148-156): ensure a leading
slash, then prepend the `/api/v1` segment unless it already occurs. -/
def normalizeEndpoint (endpoint : Str) : Str :=
  let e1 := if ("/".data).isPrefixOf endpoint then endpoint else "/".data ++ endpoint
  if jsIncludes e1 ("/api/v1".data) then e1 else "/api/v1".data ++ e1

/-- The `URLSearchParams` accumulated by the `forEach` loop in `_request`
(lines 163-166): one `(key, String(value))` pair appended per entry of the
parameter mapping, in insertion order. -/
def buildQueryPairs (params : List (Str × JSValue)) : List (Str × Str) :=
  params.foldl (fun sp kv => sp ++ [(kv.1, jsToString kv.2)]) []

/-- Serialization of `URLSearchParams.toString()`: each pair rendered as
`encodedKey=encodedValue`, pairs joined with `&`. -/
def serializePairs (pairs : List (Str × Str)) : Str :=
  List.intercalate ("&".data)
    (pairs.map fun kv => formEncode kv.1 ++ '=' :: formEncode kv.2)

/-- The query string `queryParams.toString()` produced for a parameter
mapping. -/
def queryString (params : List (Str × JSValue)) : Str :=
  serializePairs (buildQueryPairs params)

/-- URL construction in `_request` (lines 158-174): base URL plus normalized
endpoint, query string when the mapping is non-empty, then CORS-proxy
wrapping when the proxy is enabled and its URL is truthy (non-empty). -/
def buildRequestUrl (api : CanvasAPI) (endpoint : Str)
    (params : List (Str × JSValue)) : Str :=
  let e := normalizeEndpoint endpoint
  let url := api.apiUrl ++ e
  let url := if 0 < params.length then url ++ '?' :: queryString params else url
  if api.useProxy && !api.corsProxyUrl.isEmpty
  then api.corsProxyUrl ++ encodeURIComponent url
  else url

/-- Error message thrown by `_request` on a status `≥ 400` (line 198):
`Canvas API request failed: <status> - <text>`. -/
def requestErrorText (status : Nat) (text : Str) : Str :=
  "Canvas API request failed: ".data ++ natToStr status
    ++ " - ".data ++ text

/-- The request primitive `CanvasAPI._request` (lines 141-206): builds the
URL and headers, issues the request with `throw: false`, rethrows any
transport error unchanged, fails with `requestErrorText` on status `≥ 400`,
and otherwise returns the decoded JSON body. -/
def CanvasAPI.request (api : CanvasAPI) (t : Transport) (endpoint : Str)
    (method : Str) (params : List (Str × JSValue)) (data : Option Json) :
    Except Str Json :=
  let url := buildRequestUrl api endpoint params
  let headers : List (Str × Str) :=
    [("Authorization".data, "Bearer ".data ++ api.accessToken),
     ("Content-Type".data, "application/json".data)]
  match t ⟨url, method, headers, data.map jsonStringify, false⟩ with
  | Except.error e => Except.error e
  | Except.ok response =>
      if 400 ≤ response.status
      then Except.error (requestErrorText response.status response.text)
      else Except.ok response.json

/-- `CanvasAPI.getUserProfile` (lines 212-214). -/
def CanvasAPI.getUserProfile (api : CanvasAPI) (t : Transport) :
    Except Str Json :=
  api.request t ("/users/self".data) ("GET".data) [] none

/-- Parameter mapping built by `getCourses` (lines 223-233): `per_page=50`
always; `enrollment_type` and `enrollment_state` only when the corresponding
argument is truthy (present and non-empty). -/
def getCoursesParams (enrollmentType enrollmentState : Option Str) :
    List (Str × JSValue) :=
  let params := [("per_page".data, JSValue.num 50)]
  let params :=
    match enrollmentType with
    | none => params
    | some s =>
        if s.isEmpty then params
        else params ++ [("enrollment_type".data, JSValue.str s)]
  match enrollmentState with
  | none => params
  | some s =>
      if s.isEmpty then params
      else params ++ [("enrollment_state".data, JSValue.str s)]

/-- `CanvasAPI.getCourses` (lines 222-236). -/
def CanvasAPI.getCourses (api : CanvasAPI) (t : Transport)
    (enrollmentType enrollmentState : Option Str) : Except Str Json :=
  api.request t ("/courses".data) ("GET".data)
    (getCoursesParams enrollmentType enrollmentState) none

/-- `CanvasAPI.getCourseAssignments` (lines 243-245). -/
def CanvasAPI.getCourseAssignments (api : CanvasAPI) (t : Transport)
    (courseId : Str) : Except Str Json :=
  api.request t ("/courses/".data ++ courseId ++ "/assignments".data)
    ("GET".data) [("per_page".data, JSValue.num 50)] none

/-- `CanvasAPI.getCourseModules` (lines 252-254). -/
def CanvasAPI.getCourseModules (api : CanvasAPI) (t : Transport)
    (courseId : Str) : Except Str Json :=
  api.request t ("/courses/".data ++ courseId ++ "/modules".data)
    ("GET".data) [("per_page".data, JSValue.num 50)] none

/-- `CanvasAPI.getUpcomingEvents` (lines 260-262). -/
def CanvasAPI.getUpcomingEvents (api : CanvasAPI) (t : Transport) :
    Except Str Json :=
  api.request t ("/users/self/upcoming_events".data) ("GET".data) [] none

/-- `CanvasAPI.getTodoItems` (lines 268-270). -/
def CanvasAPI.getTodoItems (api : CanvasAPI) (t : Transport) :
    Except Str Json :=
  api.request t ("/users/self/todo".data) ("GET".data) [] none

/-- Parameter mapping of `getCourseGrades` (lines 277-282). -/
def gradesParams : List (Str × JSValue) :=
  [("include".data,
      JSValue.arr [JSValue.str ("total_scores".data),
                   JSValue.str ("current_grading_period_scores".data)]),
   ("enrollment_type".data, JSValue.str ("student".data)),
   ("enrollment_state".data, JSValue.str ("active".data)),
   ("per_page".data, JSValue.num 50)]

/-- `CanvasAPI.getCourseGrades` (lines 276-283). -/
def CanvasAPI.getCourseGrades (api : CanvasAPI) (t : Transport) :
    Except Str Json :=
  api.request t ("/courses".data) ("GET".data) gradesParams none

/-- `CanvasAPI.testConnection` (lines 289-296): probes `getUserProfile`,
converting success to `true` and any error to `false`. -/
def CanvasAPI.testConnection (api : CanvasAPI) (t : Transport) : Bool :=
  match api.getUserProfile t with
  | Except.ok _ => true
  | Except.error _ => false

/-- The public operations of the client other than `testConnection`. -/
inductive PublicOp where
  | userProfile
  | courses (enrollmentType enrollmentState : Option Str)
  | courseAssignments (courseId : Str)
  | courseModules (courseId : Str)
  | upcomingEvents
  | todoItems
  | courseGrades

/-- Dispatch of a public operation against a client and a transport. -/
def runPublicOp (api : CanvasAPI) (t : Transport) : PublicOp → Except Str Json
  | PublicOp.userProfile => api.getUserProfile t
  | PublicOp.courses a b => api.getCourses t a b
  | PublicOp.courseAssignments cid => api.getCourseAssignments t cid
  | PublicOp.courseModules cid => api.getCourseModules t cid
  | PublicOp.upcomingEvents => api.getUpcomingEvents t
  | PublicOp.todoItems => api.getTodoItems t
  | PublicOp.courseGrades => api.getCourseGrades t

/-- Sample client with the proxy disabled, for concrete witnesses. -/
def sampleApi : CanvasAPI :=
  ⟨"https://canvas.example.edu".data, "token".data, false, []⟩

/-- Sample client with the proxy enabled and a non-empty proxy URL. -/
def sampleProxyApi : CanvasAPI :=
  ⟨"https://canvas.example.edu".data, "token".data, true,
    "https://cors.example.com/".data⟩

/-- Sample failing response: status 404 with body `Not Found`. -/
def sampleNotFound : Response := ⟨404, "Not Found".data, Json.null⟩

/-- Sample successful response: status 200 with a JSON body. -/
def sampleOkResponse : Response :=
  ⟨200, "[]".data, Json.arr [Json.str ("ok".data)]⟩

/-- Transport that answers every request with the 404 response. -/
def sampleNotFoundTransport : Transport := fun _ => Except.ok sampleNotFound

/-- Transport that answers every request with the 200 response. -/
def sampleOkTransport : Transport := fun _ => Except.ok sampleOkResponse

/-- Transport that fails before any status is received. -/
def sampleFailingTransport : Transport :=
  fun _ => Except.error ("net::ERR_CONNECTION_REFUSED".data)

theorem jsIncludes_correct (hay needle : Str) :
    jsIncludes hay needle = true ↔ needle <:+: hay := by
  induction hay with
  | nil =>
    rw [jsIncludes]
    simp
  | cons a t ih =>
    rw [jsIncludes]
    simp only [Bool.or_eq_true, ih]
    constructor
    · rintro (hp | ⟨p, q, hq⟩)
      · simp at hp
        obtain ⟨u, hu⟩ := hp
        exact ⟨[], u, by simpa using hu⟩
      · exact ⟨a :: p, q, by simp [hq]⟩
    · rintro ⟨p, q, hq⟩
      cases p with
      | nil =>
        left
        simp only [List.nil_append] at hq
        simp
        exact ⟨q, hq⟩
      | cons b p =>
        right
        simp only [List.cons_append, List.cons.injEq] at hq
        exact ⟨p, q, hq.2⟩

theorem buildQueryPairs_eq (params : List (Str × JSValue)) :
    buildQueryPairs params = params.map fun kv => (kv.1, jsToString kv.2) := by
  have key : ∀ (ps : List (Str × JSValue)) (acc : List (Str × Str)),
      ps.foldl (fun sp kv => sp ++ [(kv.1, jsToString kv.2)]) acc =
        acc ++ ps.map fun kv => (kv.1, jsToString kv.2) := by
    intro ps
    induction ps with
    | nil => simp
    | cons kv ps ih => intro acc; simp [ih]
  simpa using key params []

theorem request_response_spec (api : CanvasAPI) (t : Transport) (e m : Str)
    (p : List (Str × JSValue)) (d : Option Json) (resp : Response)
    (ht : ∀ req, t req = Except.ok resp) :
    api.request t e m p d =
      if 400 ≤ resp.status
      then Except.error (requestErrorText resp.status resp.text)
      else Except.ok resp.json := by
  simp only [CanvasAPI.request, ht]

/-- C2: `testConnection` returns `true` exactly when `getUserProfile`
resolves successfully, and `false` exactly when it rejects for any reason
(HTTP error status or transport failure); being `Bool`-valued and total, it
never throws. -/
theorem testConnection_spec (api : CanvasAPI) (t : Transport) :
    (api.testConnection t = true ↔ ∃ j, api.getUserProfile t = Except.ok j)
    ∧ (api.testConnection t = false ↔
        ∃ e, api.getUserProfile t = Except.error e) := by
  cases h : api.getUserProfile t <;> simp [CanvasAPI.testConnection, h]

/-- C6: construction strips exactly one trailing slash from the configured
base URL when one is present (the stripped result plus `/` restores the
original, so never more than one is removed) and leaves a base URL without a
trailing slash unchanged; the stored base URL is exactly this normalization
of the configured URL. -/
theorem base_url_normalization_spec (settings : MyPluginSettings) :
    ((CanvasAPI.ofSettings settings).apiUrl =
        stripTrailingSlash settings.canvasApiUrl)
    ∧ ((['/'] <:+ settings.canvasApiUrl) →
        stripTrailingSlash settings.canvasApiUrl ++ ['/'] =
          settings.canvasApiUrl)
    ∧ (¬ (['/'] <:+ settings.canvasApiUrl) →
        stripTrailingSlash settings.canvasApiUrl = settings.canvasApiUrl) := by
  refine ⟨rfl, ?_, ?_⟩
  · rintro ⟨t, ht⟩
    rw [← ht]
    simp [stripTrailingSlash]
  · intro h
    rw [stripTrailingSlash, if_neg]
    intro hc
    exact h ⟨settings.canvasApiUrl.dropLast,
      List.dropLast_append_getLast? _ (by simp [hc])⟩

/-- C6 witness: a URL with a trailing slash loses exactly one slash, and one
without gains no change. -/
theorem base_url_normalization_spec_witness :
    stripTrailingSlash ("https://canvas.example.edu/".data) ++ ['/'] =
      "https://canvas.example.edu/".data :=
  (base_url_normalization_spec
    ⟨[], "https://canvas.example.edu/".data, [], false, []⟩).2.1 (by decide)

/-- C10: calling `getCourses` with empty-string arguments is equivalent to
calling it with no arguments: both enrollment filters are omitted, so the
same request is built. -/
theorem getCourses_empty_args_spec (api : CanvasAPI) (t : Transport) :
    api.getCourses t (some []) (some []) = api.getCourses t none none
    ∧ getCoursesParams (some []) (some []) = getCoursesParams none none :=
  ⟨rfl, rfl⟩

/-- C7: `getCourses` with no arguments builds a query containing
`per_page=50` and neither `enrollment_type` nor `enrollment_state` (its key
list is exactly `per_page`); `getCourses('student', 'active')` builds a query
containing all three of `per_page=50`, `enrollment_type=student` and
`enrollment_state=active`. -/
theorem getCourses_params_spec :
    (buildQueryPairs (getCoursesParams none none)).map Prod.fst =
      ["per_page".data]
    ∧ ("per_page=50".data <:+: queryString (getCoursesParams none none))
    ∧ ¬ ("enrollment_type".data <:+: queryString (getCoursesParams none none))
    ∧ ¬ ("enrollment_state".data <:+: queryString (getCoursesParams none none))
    ∧ ("per_page=50".data <:+:
        queryString (getCoursesParams (some ("student".data))
          (some ("active".data))))
    ∧ ("enrollment_type=student".data <:+:
        queryString (getCoursesParams (some ("student".data))
          (some ("active".data))))
    ∧ ("enrollment_state=active".data <:+:
        queryString (getCoursesParams (some ("student".data))
          (some ("active".data)))) := by
  decide

/-- C9: when the proxy flag is enabled but the configured proxy URL is the
empty string, no proxy wrapping occurs: the final URL is the unproxied one,
exactly as with the proxy disabled. -/
theorem proxy_empty_url_spec (api : CanvasAPI) (e : Str)
    (params : List (Str × JSValue)) (_hm : api.useProxy = true)
    (hp : api.corsProxyUrl = []) :
    buildRequestUrl api e params =
      api.apiUrl ++ normalizeEndpoint e ++
        (if 0 < params.length then '?' :: queryString params else [])
    ∧ buildRequestUrl api e params =
      buildRequestUrl ⟨api.apiUrl, api.accessToken, false, api.corsProxyUrl⟩
        e params := by
  constructor <;> simp [buildRequestUrl, hp] <;> split <;>
    simp [List.append_assoc]

/-- C9 witness: with the proxy flag on and an empty proxy URL, a concrete
request URL stays unwrapped. -/
theorem proxy_empty_url_spec_witness :
    buildRequestUrl ⟨"https://canvas.example.edu".data, "token".data, true, []⟩
        ("/courses".data) [] =
      ("https://canvas.example.edu".data) ++
        normalizeEndpoint ("/courses".data) ++
        (if 0 < ([] : List (Str × JSValue)).length
          then '?' :: queryString [] else []) :=
  (proxy_empty_url_spec
    ⟨"https://canvas.example.edu".data, "token".data, true, []⟩
    ("/courses".data) [] rfl rfl).1

/-- C3: with the proxy disabled the final request URL is the normalized base
URL plus the normalized path, plus the query string when the parameter
mapping is non-empty, with no proxy wrapping; with the proxy enabled and a
non-empty proxy URL `P`, the final URL is `P` followed by the
percent-encoding of that same unproxied URL. -/
theorem request_url_proxy_spec (api : CanvasAPI) (e : Str)
    (params : List (Str × JSValue)) :
    (api.useProxy = false →
      buildRequestUrl api e params =
        api.apiUrl ++ normalizeEndpoint e ++
          (if 0 < params.length then '?' :: queryString params else []))
    ∧ (api.useProxy = true → api.corsProxyUrl ≠ [] →
      buildRequestUrl api e params =
        api.corsProxyUrl ++ encodeURIComponent
          (api.apiUrl ++ normalizeEndpoint e ++
            (if 0 < params.length then '?' :: queryString params else []))) := by
  constructor
  · intro h
    simp [buildRequestUrl, h]
    split <;> simp [List.append_assoc]
  · intro h hp
    simp [buildRequestUrl, h, hp]
    split <;> simp [List.append_assoc]

/-- C3 witness: a concrete proxied request URL is the proxy URL followed by
the percent-encoded unproxied URL. -/
theorem request_url_proxy_spec_witness :
    buildRequestUrl sampleProxyApi ("/courses".data)
        [("per_page".data, JSValue.num 50)] =
      sampleProxyApi.corsProxyUrl ++ encodeURIComponent
        (sampleProxyApi.apiUrl ++ normalizeEndpoint ("/courses".data) ++
          (if 0 < [("per_page".data, JSValue.num 50)].length
            then '?' :: queryString [("per_page".data, JSValue.num 50)]
            else [])) :=
  (request_url_proxy_spec sampleProxyApi ("/courses".data)
    [("per_page".data, JSValue.num 50)]).2 rfl (by decide)

/-- C4: endpoint normalization adds exactly one leading slash to a path that
lacks one and leaves a path that has one unchanged; it prepends the
`/api/v1` segment exactly once when the slash-normalized path does not
contain it, and performs no insertion when it already does. -/
theorem endpoint_normalization_spec (e : Str) :
    (("/".data <+: e) → ¬ (("/api/v1".data) <:+: e) →
        normalizeEndpoint e = "/api/v1".data ++ e)
    ∧ (("/".data <+: e) → (("/api/v1".data) <:+: e) →
        normalizeEndpoint e = e)
    ∧ (¬ ("/".data <+: e) → ¬ (("/api/v1".data) <:+: ('/' :: e)) →
        normalizeEndpoint e = "/api/v1".data ++ '/' :: e)
    ∧ (¬ ("/".data <+: e) → (("/api/v1".data) <:+: ('/' :: e)) →
        normalizeEndpoint e = '/' :: e) := by
  refine ⟨fun hs hv => ?_, fun hs hv => ?_, fun hs hv => ?_, fun hs hv => ?_⟩
  · have h1 : ("/".data).isPrefixOf e = true := by simpa using hs
    have h2 : jsIncludes e ("/api/v1".data) = false :=
      Bool.eq_false_iff.mpr fun hc => hv ((jsIncludes_correct e _).mp hc)
    simp [normalizeEndpoint, h1, h2]
  · have h1 : ("/".data).isPrefixOf e = true := by simpa using hs
    have h2 : jsIncludes e ("/api/v1".data) = true :=
      (jsIncludes_correct e _).mpr hv
    simp [normalizeEndpoint, h1, h2]
  · have h1 : ("/".data).isPrefixOf e = false :=
      Bool.eq_false_iff.mpr fun hc => hs (by simpa using hc)
    have h2 : jsIncludes ('/' :: e) ("/api/v1".data) = false :=
      Bool.eq_false_iff.mpr fun hc => hv ((jsIncludes_correct _ _).mp hc)
    simp [normalizeEndpoint, h1, h2]
  · have h1 : ("/".data).isPrefixOf e = false :=
      Bool.eq_false_iff.mpr fun hc => hs (by simpa using hc)
    have h2 : jsIncludes ('/' :: e) ("/api/v1".data) = true :=
      (jsIncludes_correct _ _).mpr hv
    simp [normalizeEndpoint, h1, h2]

/-- C4 witness: a bare endpoint gains one leading slash and one `/api/v1`
prefix. -/
theorem endpoint_normalization_spec_witness :
    normalizeEndpoint ("courses".data) = "/api/v1/courses".data := by
  have h := (endpoint_normalization_spec ("courses".data)).2.2.1
    (by decide) (by decide)
  simpa using h

/-- C5: for a non-empty parameter mapping, the produced query string is the
`&`-join, in insertion order, of one `encodedKey=encodedValue` fragment per
entry (so every key occurs exactly once, URL-encoded, and the pair list
carries exactly the mapping's keys in order); values go through JS default
string conversion, under which an array `[a, b]` becomes the single
comma-joined string rather than a repeated key. -/
theorem query_serialization_spec (params : List (Str × JSValue))
    (_h : params ≠ []) :
    queryString params =
      List.intercalate ("&".data)
        (params.map fun kv => formEncode kv.1 ++ '=' :: formEncode (jsToString kv.2))
    ∧ (buildQueryPairs params).map Prod.fst = params.map Prod.fst
    ∧ ∀ a b : JSValue, jsToString (JSValue.arr [a, b]) =
        jsToString a ++ ',' :: jsToString b := by
  refine ⟨?_, ?_, ?_⟩
  · rw [queryString, buildQueryPairs_eq, serializePairs, List.map_map]
    rfl
  · rw [buildQueryPairs_eq, List.map_map]
    rfl
  · intro a b
    rw [jsToString, jsArrToString, jsArrToString]

/-- C5 witness: the `getCourseGrades` mapping serializes to the `&`-joined
encoded fragments with its keys in order, and a two-element array value
joins with a comma. -/
theorem query_serialization_spec_witness :
    queryString gradesParams =
      List.intercalate ("&".data)
        (gradesParams.map fun kv =>
          formEncode kv.1 ++ '=' :: formEncode (jsToString kv.2))
    ∧ (buildQueryPairs gradesParams).map Prod.fst =
        gradesParams.map Prod.fst
    ∧ ∀ a b : JSValue, jsToString (JSValue.arr [a, b]) =
        jsToString a ++ ',' :: jsToString b :=
  query_serialization_spec gradesParams (by simp [gradesParams])

/-- C1: for every public operation other than `testConnection`, when the
response has status `≥ 400` the operation rejects with the error built in
`_request`, whose message contains the numeric status code and the raw
response text as substrings, with no further wrapping; when the status is
`< 400` it returns the decoded JSON body of the response unchanged. -/
theorem public_ops_error_spec (api : CanvasAPI) (t : Transport) (op : PublicOp)
    (resp : Response) (ht : ∀ req, t req = Except.ok resp) :
    (400 ≤ resp.status →
      runPublicOp api t op =
        Except.error (requestErrorText resp.status resp.text)
      ∧ (∃ p q, requestErrorText resp.status resp.text =
          p ++ natToStr resp.status ++ q)
      ∧ (∃ p q, requestErrorText resp.status resp.text = p ++ resp.text ++ q))
    ∧ (resp.status < 400 → runPublicOp api t op = Except.ok resp.json) := by
  have hrun : runPublicOp api t op =
      if 400 ≤ resp.status
      then Except.error (requestErrorText resp.status resp.text)
      else Except.ok resp.json := by
    cases op <;> exact request_response_spec api t _ _ _ _ resp ht
  refine ⟨fun h4 => ⟨?_, ?_, ?_⟩, fun hlt => ?_⟩
  · rw [hrun, if_pos h4]
  · exact ⟨"Canvas API request failed: ".data, " - ".data ++ resp.text,
      by simp [requestErrorText, List.append_assoc]⟩
  · exact ⟨"Canvas API request failed: ".data ++ natToStr resp.status
        ++ " - ".data, [],
      by simp [requestErrorText, List.append_assoc]⟩
  · rw [hrun, if_neg (by omega)]

/-- C1 witness: against a simulated 404 `Not Found` response, `getUserProfile`
rejects with the `_request` error; against a simulated 200 response it
returns the decoded body. -/
theorem public_ops_error_spec_witness :
    runPublicOp sampleApi sampleNotFoundTransport PublicOp.userProfile =
      Except.error (requestErrorText 404 ("Not Found".data))
    ∧ runPublicOp sampleApi sampleOkTransport PublicOp.userProfile =
      Except.ok sampleOkResponse.json := by
  constructor
  · exact ((public_ops_error_spec sampleApi sampleNotFoundTransport
      PublicOp.userProfile sampleNotFound (fun _ => rfl)).1 (by decide)).1
  · exact (public_ops_error_spec sampleApi sampleOkTransport
      PublicOp.userProfile sampleOkResponse (fun _ => rfl)).2 (by decide)

/-- C8: `getCourseGrades` issues a GET request to `/courses` whose parameter
mapping is exactly `include=[total_scores, current_grading_period_scores]`,
`enrollment_type=student`, `enrollment_state=active`, `per_page=50` (shown
both as the mapping handed to the request primitive and as the concrete
serialized query string), and returns the decoded response body on
success. -/
theorem getCourseGrades_spec (api : CanvasAPI) (t : Transport)
    (resp : Response) (ht : ∀ req, t req = Except.ok resp) :
    api.getCourseGrades t =
      api.request t ("/courses".data) ("GET".data)
        [("include".data, JSValue.arr
            [JSValue.str ("total_scores".data),
             JSValue.str ("current_grading_period_scores".data)]),
         ("enrollment_type".data, JSValue.str ("student".data)),
         ("enrollment_state".data, JSValue.str ("active".data)),
         ("per_page".data, JSValue.num 50)] none
    ∧ queryString gradesParams =
        ("include=total_scores%2Ccurrent_grading_period_scores&enrollment_type=student&enrollment_state=active&per_page=50".data)
    ∧ (resp.status < 400 → api.getCourseGrades t = Except.ok resp.json) := by
  refine ⟨rfl, by decide, fun hlt => ?_⟩
  have h2 : api.getCourseGrades t =
      if 400 ≤ resp.status
      then Except.error (requestErrorText resp.status resp.text)
      else Except.ok resp.json :=
    request_response_spec api t ("/courses".data) ("GET".data)
      gradesParams none resp ht
  rw [h2, if_neg (by omega)]

/-- C8 witness: against a simulated 200 response, `getCourseGrades` returns
the decoded body. -/
theorem getCourseGrades_spec_witness :
    CanvasAPI.getCourseGrades sampleApi sampleOkTransport =
      Except.ok sampleOkResponse.json :=
  (getCourseGrades_spec sampleApi sampleOkTransport sampleOkResponse
    (fun _ => rfl)).2.2 (by decide)
